import Mathlib

/-!
Verification of `cleanup.py` (dotdesktop-cleaner).

The Python source is shallowly embedded here.  Strings are modelled as
`List Char`; the filesystem visible to the program is modelled as the list
of paths that currently exist.  Library calls the source treats as external
(shell-word splitting via `shlex.split`, PATH lookup via `shutil.which`)
are passed in as oracle functions.  Each embedded definition cites the
source lines it translates.
-/

namespace Cleanup

/-! ## Python string primitives -/

/-- Whitespace characters removed by Python `str.strip()`. -/
def isPySpace (c : Char) : Bool :=
  c = ' ' || c = '\t' || c = '\n' || c = '\r' || c = '\x0b' || c = '\x0c'

/-- Python `str.lstrip()` on a character list. -/
def lstripL (l : List Char) : List Char := l.dropWhile isPySpace

/-- Python `str.rstrip()` on a character list. -/
def rstripL (l : List Char) : List Char := (l.reverse.dropWhile isPySpace).reverse

/-- Python `str.strip()` on a character list. -/
def pyStripL (l : List Char) : List Char := rstripL (lstripL l)

/-- Python `s.split(' ', 1)` when `s` contains a space: the text before the
first space and the remainder.  Returns `none` when there is no space, which
is exactly the condition `' ' not in s` tested at cleanup.py line 88. -/
def splitFirstSpace : List Char → Option (List Char × List Char)
  | [] => none
  | c :: cs =>
    if c = ' ' then some ([], cs)
    else match splitFirstSpace cs with
      | none => none
      | some (a, b) => some (c :: a, b)

/-- Python `str.lower()` (ASCII is all the source needs). -/
def pyLower (l : List Char) : List Char := l.map Char.toLower

/-- Python `str.endswith(suffixArg)` as a suffix test on character lists. -/
def pyEndsWith (l suffixArg : List Char) : Bool := suffixArg.isSuffixOf l

/-- Drop a single trailing newline from a line, as a reader of the protocol
would when speaking of what a response line "ends with". -/
def chompNL (l : List Char) : List Char :=
  if l.getLast? = some '\n' then l.dropLast else l

/-- Model of Python `repr` on a string value with no quotes or escapes in it,
as produced by the f-string `{command=}` debug form at cleanup.py line 102. -/
def pyRepr (l : List Char) : List Char := '\x27' :: (l ++ ['\x27'])

/-! ## Filesystem model -/

/-- The filesystem is the list of paths that exist. -/
abbrev FS := List (List Char)

/-- `os.path.exists(p)`.  NOTE: the real call performs no tilde expansion;
neither does this model (cleanup.py line 71). -/
def os_path_exists (fs : FS) (p : List Char) : Bool := fs.contains p

/-- `Path(p).unlink()`: removes the path when it exists, raises otherwise
(`FileNotFoundError`; a directory would likewise raise).  `none` models the
raised exception. -/
def unlinkFS (fs : FS) (p : List Char) : Option FS :=
  if fs.contains p then some (fs.erase p) else none

/-! ## Privileged helper process (cleanup.py lines 85-103) -/

/-- The usage line actually written at cleanup.py line 89: the Python literal
`"Must be in the form '[CMD] ...\\n'\n"` contains a literal backslash-n
before the closing quote, then a real newline. -/
def usageLine : List Char := "Must be in the form \x27[CMD] ...\\n\x27\n".data

/-- The response written at cleanup.py line 95 for a non-`.desktop` argument. -/
def errNotDesktopLine : List Char := "ERR Must be a .desktop file.\n".data

/-- The response written at cleanup.py line 99 after a successful unlink. -/
def successLine (entry : List Char) : List Char :=
  "UNLINK ".data ++ entry ++ " SUCCESS\n".data

/-- The response written at cleanup.py line 102 for an unknown command. -/
def unknownLine (command entry : List Char) : List Char :=
  "ERR Unknown: command=".data ++ pyRepr command ++ " entry=".data
    ++ pyRepr entry ++ "\n".data

/-- Outcome of handling one input line inside `start_privilaged`:
`next` carries the response lines written and the filesystem afterwards and
the loop continues; `crash` means an exception escaped the loop (nothing is
caught there), with the lines written before the exception and the untouched
filesystem. -/
inductive HelperOutcome where
  | next (output : List (List Char)) (fs : FS)
  | crash (output : List (List Char)) (fs : FS)
deriving DecidableEq

/-- Dispatch on a line already split into `command` and `entry`
(cleanup.py lines 93-103). -/
def dispatchCmd (fs : FS) (command entry : List Char) : HelperOutcome :=
  if command = "UNLINK".data then
    if ¬ pyEndsWith entry ".desktop".data then
      .next [errNotDesktopLine] fs
    else
      match unlinkFS fs entry with
      | none => .crash [] fs
      | some fs' => .next [successLine entry] fs'
  else
    .next [unknownLine command entry] fs

/-- One iteration of the `while True` dispatch loop of `start_privilaged`
(cleanup.py lines 86-103), applied to the raw line read from stdin: strip,
answer the usage line when no space is present, otherwise split at the
first space and dispatch. -/
def start_privilaged_step (fs : FS) (rawLine : List Char) : HelperOutcome :=
  match splitFirstSpace (pyStripL rawLine) with
  | none => .next [usageLine] fs
  | some (command, entry) => dispatchCmd fs command entry

/-! ## Helper client (cleanup.py lines 140-159) -/

/-- The acceptance test of `remove_file`'s privileged fallback: the response
line read back is stripped and tested with `endswith("SUCCESS")`
(cleanup.py lines 154-159). -/
def remove_file_accepts (line : List Char) : Bool :=
  pyEndsWith (pyStripL line) "SUCCESS".data

/-! ## Cached singleton subprocess (cleanup.py lines 105-118)

`privilaged_subprocess` is a nullary function under `functools.cache`.
The memoisation is modelled by explicit state passing: `SpawnState.cached`
is the memo cell of the decorator, and `SpawnState.counter` numbers process
creations so that distinct `Popen` calls yield distinct handles. -/

/-- Process-wide state relevant to `privilaged_subprocess`. -/
structure SpawnState where
  counter : Nat
  cached : Option Nat
deriving DecidableEq

/-- `subprocess.Popen(...)` (cleanup.py lines 107-118): creates a fresh child
process and returns its handle. -/
def popen_pkexec (s : SpawnState) : Nat × SpawnState :=
  (s.counter, { s with counter := s.counter + 1 })

/-- `privilaged_subprocess` under `@cache` (cleanup.py lines 105-106): return
the memoised handle when present, otherwise spawn and memoise. -/
def privilaged_subprocess (s : SpawnState) : Nat × SpawnState :=
  match s.cached with
  | some h => (h, s)
  | none =>
    let (h, s') := popen_pkexec s
    (h, { s' with cached := some h })

/-! ## Scanner (cleanup.py lines 54-83)

Directory walking, `configparser` parsing, `shlex.split` and `shutil.which`
are external to the core logic; the model receives each scanned file already
parsed (`FileParse`), a tokenizer oracle for `shlex.split` and a PATH oracle
for `shutil.which`.  The single `ConfigParser` created at line 56 is shared
across all files and `ConfigParser.read` merges sections, so the visible
`["Desktop Entry"]["Exec"]` value is threaded through the scan as state. -/

/-- Exceptions the scanner body can raise that its handlers do not catch:
`command[0]` and `[...][0]` on an empty list raise `IndexError`
(cleanup.py lines 65-66), and lines 77-82 catch only `configparser.Error`
and `KeyError`. -/
inductive PyExc where
  | indexError
deriving DecidableEq

/-- What `config.read` contributes for one scanned file: `malformed msg`
when the file raises `configparser.Error` whose message is `msg`, otherwise
`parsed v` where `v` is the `[Desktop Entry] Exec` value defined by this
file, if any. -/
inductive FileParse where
  | malformed (msg : List Char)
  | parsed (execVal : Option (List Char))
deriving DecidableEq

/-- Python `e.message.split(chr 10, 1)[0]` (cleanup.py line 78). -/
def firstLine (msg : List Char) : List Char := msg.takeWhile (fun c => c ≠ '\n')

/-- The comprehension filter of cleanup.py line 66: keep a token when it
does not contain an `=` character. -/
def noAssign (c : List Char) : Bool := ! c.contains '='

/-- Resolution of the executable token from the `shlex.split` token list
(cleanup.py lines 63-68).  `command[0]` on an empty list and `[...][0]` on an
empty comprehension raise `IndexError`. -/
def resolveExec (command : List (List Char)) : Except PyExc (List Char) :=
  match command with
  | [] => .error .indexError
  | c0 :: rest =>
    if pyLower c0 = "env".data then
      match rest.filter noAssign with
      | [] => .error .indexError
      | e :: _ => .ok e
    else .ok c0

/-- Broken-entry classification of a resolved executable token
(cleanup.py lines 70-76): `some reason` when the entry is broken.  `which`
is the `shutil.which` oracle.  NOTE: line 71 tests `os.path.exists` on the
raw token, with no tilde expansion. -/
def classifyResolved (fs : FS) (which : List Char → Bool) (ex : List Char) :
    Option (List Char) :=
  if ex.head? = some '/' || ex.head? = some '~' then
    if ¬ os_path_exists fs ex then some "Executable does not exist.".data
    else none
  else if ¬ which ex then some "Executable not found in $PATH.".data
  else none

/-- Scan of one file (one iteration of the loop body at cleanup.py lines
59-82).  `st` is the `[Desktop Entry] Exec` value visible in the shared
`ConfigParser` before this file is read; the result carries the state after
the merging `config.read` together with `some reason` when the file was
appended to `broken`.  A `PyExc` escapes both handlers and aborts the scan. -/
def scanFile (fs : FS) (which : List Char → Bool)
    (shlex : List Char → List (List Char))
    (st : Option (List Char)) (f : FileParse) :
    Except PyExc (Option (List Char) × Option (List Char)) :=
  match f with
  | .malformed msg => .ok (st, some (firstLine msg))
  | .parsed v =>
    let st' := match v with
      | some s => some s
      | none => st
    match st' with
    | none => .ok (st', some "No [Desktop Entry].Exec entry found.".data)
    | some fullExec =>
      match resolveExec (shlex (pyStripL fullExec)) with
      | .error e => .error e
      | .ok ex => .ok (st', classifyResolved fs which ex)

/-- `find_broken_desktop_files` (cleanup.py lines 54-83) over the list of
scanned files, returning the reasons of the broken entries in scan order.
An uncaught exception aborts the whole scan. -/
def find_broken_desktop_files (fs : FS) (which : List Char → Bool)
    (shlex : List Char → List (List Char)) :
    Option (List Char) → List FileParse → Except PyExc (List (List Char))
  | _, [] => .ok []
  | st, f :: rest =>
    match scanFile fs which shlex st f with
    | .error e => .error e
    | .ok (st', reason) =>
      match find_broken_desktop_files fs which shlex st' rest with
      | .error e => .error e
      | .ok rs =>
        .ok (match reason with
          | some r => r :: rs
          | none => rs)

/-- Modelled from the spec: `os.path.expanduser`, the tilde and home
expansion the spec says the existence test is performed on (spec 4.1: "the
expanded path").  A leading tilde is replaced by the home directory; other tokens
are unchanged.  The source never calls this on the executable token. -/
def expanduserSpec (home p : List Char) : List Char :=
  match p with
  | '~' :: rest => home ++ rest
  | _ => p

/-! ## Interactive remediator (cleanup.py lines 161-198) -/

/-- One user response at the prompt of cleanup.py line 183: `edit` carries
the return code of `edit_file`, `delete` the boolean of `remove_file`. -/
inductive UserResp where
  | quit
  | edit (rc : Int)
  | delete (ok : Bool)
  | ignore
deriving DecidableEq

/-- The per-entry loop of `find_and_fix` (cleanup.py lines 169-191) over `n`
entries, with `resp i` the response for the `i`-th entry; returns
`(delete_count, edit_count)`.  `quit` breaks out immediately. -/
def remLoop (resp : Nat → UserResp) : Nat → Nat → Nat × Nat
  | 0, _ => (0, 0)
  | n + 1, i =>
    match resp i with
    | .quit => (0, 0)
    | .edit rc =>
      let (d, e) := remLoop resp n (i + 1)
      (d, if rc = 0 then e + 1 else e)
    | .delete ok =>
      let (d, e) := remLoop resp n (i + 1)
      ((if ok then d + 1 else d), e)
    | .ignore => remLoop resp n (i + 1)

/-- Tail of the found-total line printed at cleanup.py line 193. -/
def foundTail : List Char := " potentially bad .desktop files were found.".data

/-- Tail of the deleted-total line printed at cleanup.py line 195. -/
def deletedTail : List Char := " deleted.".data

/-- Tail of the edited-total line printed at cleanup.py line 197. -/
def editedTail : List Char := " edited.".data

/-- The lines printed after the loop of `find_and_fix` (cleanup.py lines
192-198): the found total always, the deleted and edited totals only when
positive. -/
def totalsLines (found deleteCount editCount : Nat) : List (List Char) :=
  ["".data, (Nat.repr found).data ++ foundTail]
  ++ (if deleteCount > 0 then [(Nat.repr deleteCount).data ++ deletedTail] else [])
  ++ (if editCount > 0 then [(Nat.repr editCount).data ++ editedTail] else [])
  ++ ["".data]

/-- `find_and_fix` (cleanup.py lines 161-198) reduced to its observable
console summary: per-entry report blocks are elided, the closing totals are
produced exactly as the source prints them.  `n` is the number of broken
entries the scan returned. -/
def find_and_fix_summary (resp : Nat → UserResp) (n : Nat) : List (List Char) :=
  if n = 0 then ["No broken .desktop files were found.".data]
  else
    let (d, e) := remLoop resp n 0
    totalsLines n d e

/-! ## Lemmas about the string primitives -/

lemma splitFirstSpace_eq_none_of_no_space {l : List Char} (h : ' ' ∉ l) :
    splitFirstSpace l = none := by
  induction l with
  | nil => rfl
  | cons c cs ih =>
    have hc : ¬ (c = ' ') := by
      intro hc
      exact h (by simp [hc])
    have hcs : ' ' ∉ cs := fun hm => h (List.mem_cons_of_mem _ hm)
    simp [splitFirstSpace, hc, ih hcs]

lemma mem_of_mem_pyStripL {c : Char} {l : List Char} (h : c ∈ pyStripL l) : c ∈ l := by
  unfold pyStripL rstripL lstripL at h
  have h1 := List.mem_reverse.mp h
  have h2 := (List.dropWhile_sublist _).subset h1
  have h3 := List.mem_reverse.mp h2
  exact (List.dropWhile_sublist _).subset h3

lemma pyStripL_body_newline {body : List Char} {a b : Char}
    (ha : body.head? = some a) (hpa : isPySpace a = false)
    (hb : body.getLast? = some b) (hpb : isPySpace b = false) :
    pyStripL (body ++ ['\n']) = body := by
  cases body with
  | nil => cases ha
  | cons x xs =>
    have hx : x = a := by simpa using ha
    subst hx
    unfold pyStripL lstripL rstripL
    rw [List.cons_append, List.dropWhile_cons]
    simp only [hpa, Bool.false_eq_true, if_false]
    have hrev : (x :: (xs ++ ['\n'])).reverse = '\n' :: (x :: xs).reverse := by
      simp
    rw [hrev, List.dropWhile_cons]
    simp only [show isPySpace '\n' = true from rfl, if_true]
    have hhr : (x :: xs).reverse.head? = some b := by
      rw [List.head?_reverse]
      exact hb
    cases hr : (x :: xs).reverse with
    | nil => rw [hr] at hhr; cases hhr
    | cons y ys =>
      rw [hr] at hhr
      have hy : y = b := by simpa using hhr
      subst hy
      rw [List.dropWhile_cons]
      simp only [hpb, Bool.false_eq_true, if_false]
      rw [← hr, List.reverse_reverse]

lemma chompNL_body_newline (body : List Char) : chompNL (body ++ ['\n']) = body := by
  simp [chompNL, List.getLast?_concat]

lemma isSuffixOf_append_of_length_le {s x C : List Char} (h : s.length ≤ C.length) :
    s.isSuffixOf (x ++ C) = s.isSuffixOf C := by
  by_cases hC : s <:+ C
  · rw [List.isSuffixOf_iff_suffix.mpr hC]
    obtain ⟨t, ht⟩ := hC
    exact List.isSuffixOf_iff_suffix.mpr ⟨x ++ t, by rw [List.append_assoc, ht]⟩
  · have h1 : s.isSuffixOf C = false := by
      cases h' : s.isSuffixOf C
      · rfl
      · exact absurd (List.isSuffixOf_iff_suffix.mp h') hC
    have h2 : s.isSuffixOf (x ++ C) = false := by
      cases h' : s.isSuffixOf (x ++ C)
      · rfl
      · exfalso
        obtain ⟨t, ht⟩ := List.isSuffixOf_iff_suffix.mp h'
        have hlen : x.length ≤ t.length := by
          have hl := congrArg List.length ht
          simp only [List.length_append] at hl
          omega
        have e1 : (t ++ s).drop t.length = s := List.drop_left t s
        rw [ht] at e1
        rw [show t.length = x.length + (t.length - x.length) by omega,
          List.drop_append] at e1
        exact hC (e1 ▸ List.drop_suffix _ _)
    rw [h1, h2]

/-- Every line the helper writes has the shape `body ++ [newline]` with a
non-whitespace first and last character; on such a line the client test
(strip, then suffix check) agrees with reading the line without its
terminating newline. -/
lemma remove_file_accepts_body_newline {body : List Char} {a b : Char}
    (ha : body.head? = some a) (hpa : isPySpace a = false)
    (hb : body.getLast? = some b) (hpb : isPySpace b = false) :
    remove_file_accepts (body ++ ['\n'])
      = pyEndsWith (chompNL (body ++ ['\n'])) "SUCCESS".data := by
  rw [remove_file_accepts, pyStripL_body_newline ha hpa hb hpb,
    chompNL_body_newline]

/-! ## Claim theorems -/

/-- C2: whenever the line the helper read splits into command `UNLINK` and an
argument that does not end in `.desktop`, the helper writes exactly
`ERR Must be a .desktop file.` with a newline, touches no file (the
filesystem is returned unchanged), and continues with the next line. -/
theorem helper_unlink_non_desktop_guard (fs : FS) (raw entry : List Char)
    (h1 : splitFirstSpace (pyStripL raw) = some ("UNLINK".data, entry))
    (h2 : pyEndsWith entry ".desktop".data = false) :
    start_privilaged_step fs raw = .next [errNotDesktopLine] fs := by
  simp [start_privilaged_step, dispatchCmd, h1, h2]

/-- C2 witness: the guard at the concrete request `UNLINK /tmp/notes.txt`. -/
theorem helper_unlink_non_desktop_guard_witness :
    start_privilaged_step [] "UNLINK /tmp/notes.txt\n".data
      = .next [errNotDesktopLine] [] :=
  helper_unlink_non_desktop_guard [] "UNLINK /tmp/notes.txt\n".data
    "/tmp/notes.txt".data (by decide) (by decide)

/-- C3 counterexample: on the spaceless line `UNLINK` the helper does write a
usage line and continue, but the line written is the Python literal
`Must be in the form '[CMD] ...\\n'` plus newline — it carries a literal
backslash-n before the closing quote — and not the message
`Must be in the form '[CMD] ...'` plus newline that the claim states. -/
theorem helper_usage_message_counterexample :
    start_privilaged_step [] "UNLINK\n".data = .next [usageLine] [] ∧
    (usageLine == "Must be in the form \x27[CMD] ...\x27\n".data) = false :=
  ⟨by decide, by decide⟩

/-- C3 amended: for every input line with no space character the helper
writes exactly one line, namely `Must be in the form '[CMD] ...\\n'` (with a
literal backslash-n before the closing quote) followed by a newline,
performs no other action, and returns to reading the next line. -/
theorem helper_usage_message_amended (fs : FS) (raw : List Char)
    (h : ' ' ∉ raw) :
    start_privilaged_step fs raw = .next [usageLine] fs := by
  have hs : ' ' ∉ pyStripL raw := fun hm => h (mem_of_mem_pyStripL hm)
  simp [start_privilaged_step, splitFirstSpace_eq_none_of_no_space hs]

/-- C3 amended witness: the concrete spaceless line `UNLINK`. -/
theorem helper_usage_message_amended_witness :
    start_privilaged_step [] "UNLINK\n".data = .next [usageLine] [] :=
  helper_usage_message_amended [] "UNLINK\n".data (by decide)

/-- C4: the claim requires the existence test to be made on the tilde- and
home-expanded form of the token, but cleanup.py line 71 calls
`os.path.exists` on the raw token.  With `/home/user/x` existing on disk,
the token `~/x` expands to an existing path, yet the scanner classifies the
entry broken with "Executable does not exist.". -/
theorem scanner_tilde_not_expanded_bug :
    classifyResolved ["/home/user/x".data] (fun _ => true) "~/x".data
      = some "Executable does not exist.".data ∧
    os_path_exists ["/home/user/x".data]
      (expanduserSpec "/home/user".data "~/x".data) = true :=
  ⟨by decide, by decide⟩

/-- C5: the single `ConfigParser` of cleanup.py line 56 accumulates sections
across `config.read` calls, so a file with no `[Desktop Entry] Exec` entry
scanned after a file that had one is classified using the stale value: here
the second file (which defines nothing) is reported with reason
"Executable does not exist." instead of the claimed
"No [Desktop Entry].Exec entry found.". -/
theorem scanner_stale_parser_state_bug :
    find_broken_desktop_files [] (fun _ => false)
      (fun s => if s = "/nope".data then ["/nope".data] else [])
      none [FileParse.parsed (some "/nope".data), FileParse.parsed none]
      = .ok ["Executable does not exist.".data,
             "Executable does not exist.".data] ∧
    ("Executable does not exist.".data
      == "No [Desktop Entry].Exec entry found.".data) = false :=
  ⟨rfl, by decide⟩

/-- C6: if the first token lowercases to `env`, the resolved executable is
the first following token without an `=`; otherwise it is the first token
(cleanup.py lines 65-68). -/
theorem resolve_exec_env_skip (c0 : List Char) (rest : List (List Char)) :
    (pyLower c0 = "env".data →
      ∀ e, rest.find? noAssign = some e →
        resolveExec (c0 :: rest) = .ok e) ∧
    (pyLower c0 ≠ "env".data → resolveExec (c0 :: rest) = .ok c0) := by
  constructor
  · intro henv e hfind
    rw [← List.filter_head?] at hfind
    cases hf : rest.filter noAssign with
    | nil => rw [hf] at hfind; cases hfind
    | cons a as =>
      rw [hf] at hfind
      have ha : a = e := by simpa using hfind
      subst ha
      simp [resolveExec, henv, hf]
  · intro hne
    simp [resolveExec, hne]

/-- C6 witness: `env A=B /x` resolves to `/x`; `/y A=B` resolves to `/y`. -/
theorem resolve_exec_env_skip_witness :
    resolveExec ["env".data, "A=B".data, "/x".data] = .ok "/x".data ∧
    resolveExec ["/y".data, "A=B".data] = .ok "/y".data :=
  ⟨(resolve_exec_env_skip "env".data ["A=B".data, "/x".data]).1 (by decide)
      "/x".data (by decide),
   (resolve_exec_env_skip "/y".data ["A=B".data]).2 (by decide)⟩

/-- C7: the `functools.cache` wrapper makes `privilaged_subprocess` a lazy
idempotent singleton: calling it again after any call returns the same
handle with no further spawn; an uncached first call spawns exactly one
process and memoises its handle; a cached call changes nothing. -/
theorem privilaged_subprocess_singleton (s : SpawnState) :
    privilaged_subprocess (privilaged_subprocess s).2
      = privilaged_subprocess s ∧
    (s.cached = none →
      privilaged_subprocess s = (s.counter, ⟨s.counter + 1, some s.counter⟩)) ∧
    (∀ h0, s.cached = some h0 → privilaged_subprocess s = (h0, s)) := by
  obtain ⟨cnt, cached⟩ := s
  cases cached with
  | none =>
    refine ⟨?_, ?_, ?_⟩ <;> simp [privilaged_subprocess, popen_pkexec]
  | some h =>
    refine ⟨?_, ?_, ?_⟩ <;> simp [privilaged_subprocess, popen_pkexec]

/-- C7 witness: from the fresh state the first call spawns handle 0 and a
second call returns it unchanged. -/
theorem privilaged_subprocess_singleton_witness :
    privilaged_subprocess (privilaged_subprocess ⟨0, none⟩).2
      = privilaged_subprocess ⟨0, none⟩ ∧
    privilaged_subprocess ⟨0, none⟩ = (0, ⟨1, some 0⟩) :=
  ⟨(privilaged_subprocess_singleton ⟨0, none⟩).1,
   (privilaged_subprocess_singleton ⟨0, none⟩).2.1 rfl⟩

/-- C9: a well-formed `UNLINK <path>.desktop` request whose deletion raises
(here: the path does not exist) escapes the dispatch loop uncaught: the step
crashes, no response line is written, and the filesystem is unchanged. -/
theorem helper_unlink_error_fatal (fs : FS) (raw entry : List Char)
    (h1 : splitFirstSpace (pyStripL raw) = some ("UNLINK".data, entry))
    (h2 : pyEndsWith entry ".desktop".data = true)
    (h3 : unlinkFS fs entry = none) :
    start_privilaged_step fs raw = .crash [] fs := by
  simp [start_privilaged_step, dispatchCmd, h1, h2, h3]

/-- C9 witness: unlinking the absent `/tmp/x.desktop` kills the helper with
no response. -/
theorem helper_unlink_error_fatal_witness :
    start_privilaged_step [] "UNLINK /tmp/x.desktop\n".data = .crash [] [] :=
  helper_unlink_error_fatal [] "UNLINK /tmp/x.desktop\n".data
    "/tmp/x.desktop".data (by decide) (by decide) (by decide)

/-- C10: a present but degenerate `Exec` value — one tokenizing to an empty
list, or an `env` followed only by `KEY=VALUE` tokens — raises `IndexError`
at cleanup.py lines 65-66, which neither the `configparser.Error` nor the
`KeyError` handler catches, so the whole scan aborts instead of reporting
the file as broken. -/
theorem degenerate_exec_aborts_scan :
    resolveExec [] = .error .indexError ∧
    resolveExec ["env".data, "A=B".data] = .error .indexError ∧
    find_broken_desktop_files [] (fun _ => true) (fun _ => []) none
      [FileParse.parsed (some "".data)] = .error .indexError ∧
    find_broken_desktop_files [] (fun _ => true)
      (fun _ => ["env".data, "A=B".data]) none
      [FileParse.parsed (some "env A=B".data)] = .error .indexError :=
  ⟨rfl, rfl, rfl, rfl⟩

/-! ## C8: the totals printed after the remediation loop -/

lemma suffix_through_append {s x C : List Char}
    (hs : s.isSuffixOf (x ++ C) = true) (h : C.length ≤ s.length) :
    C.isSuffixOf s = true :=
  List.isSuffixOf_iff_suffix.mpr
    (List.suffix_of_suffix_length_le (List.suffix_append x C)
      (List.isSuffixOf_iff_suffix.mp hs) h)

lemma found_line_no_deleted_tail (m : Nat) :
    pyEndsWith ((Nat.repr m).data ++ foundTail) deletedTail = false := by
  rw [pyEndsWith, foundTail, deletedTail,
    isSuffixOf_append_of_length_le (by decide)]
  decide

lemma found_line_no_edited_tail (m : Nat) :
    pyEndsWith ((Nat.repr m).data ++ foundTail) editedTail = false := by
  rw [pyEndsWith, foundTail, editedTail,
    isSuffixOf_append_of_length_le (by decide)]
  decide

lemma deleted_line_deleted_tail (m : Nat) :
    pyEndsWith ((Nat.repr m).data ++ deletedTail) deletedTail = true := by
  rw [pyEndsWith, deletedTail, isSuffixOf_append_of_length_le (by decide)]
  decide

lemma deleted_line_no_edited_tail (m : Nat) :
    pyEndsWith ((Nat.repr m).data ++ deletedTail) editedTail = false := by
  rw [pyEndsWith, deletedTail, editedTail,
    isSuffixOf_append_of_length_le (by decide)]
  decide

lemma edited_line_edited_tail (m : Nat) :
    pyEndsWith ((Nat.repr m).data ++ editedTail) editedTail = true := by
  rw [pyEndsWith, editedTail, isSuffixOf_append_of_length_le (by decide)]
  decide

lemma edited_line_no_deleted_tail (m : Nat) :
    pyEndsWith ((Nat.repr m).data ++ editedTail) deletedTail = false := by
  cases h' : pyEndsWith ((Nat.repr m).data ++ editedTail) deletedTail
  · rfl
  · rw [pyEndsWith, editedTail, deletedTail] at h'
    exact absurd (suffix_through_append h' (by decide)) (by decide)

lemma totalsLines_spec (n d e : Nat) :
    (((Nat.repr n).data ++ foundTail) ∈ totalsLines n d e) ∧
    (totalsLines n d e).any (fun ℓ => pyEndsWith ℓ deletedTail)
      = decide (0 < d) ∧
    (totalsLines n d e).any (fun ℓ => pyEndsWith ℓ editedTail)
      = decide (0 < e) := by
  have hempty_del : pyEndsWith [] deletedTail = false := by decide
  have hempty_edit : pyEndsWith [] editedTail = false := by decide
  refine ⟨?_, ?_, ?_⟩
  · simp [totalsLines]
  · rcases Nat.eq_zero_or_pos d with hd | hd <;>
      rcases Nat.eq_zero_or_pos e with he | he
    · subst hd; subst he
      rw [totalsLines, if_neg (Nat.lt_irrefl 0), if_neg (Nat.lt_irrefl 0)]
      simp only [List.any_append, List.any_cons, List.any_nil, hempty_del,
        found_line_no_deleted_tail, Bool.or_false, Bool.false_or]
      decide
    · subst hd
      rw [totalsLines, if_neg (Nat.lt_irrefl 0), if_pos he]
      simp only [List.any_append, List.any_cons, List.any_nil, hempty_del,
        found_line_no_deleted_tail, edited_line_no_deleted_tail,
        Bool.or_false, Bool.false_or]
      decide
    · subst he
      rw [totalsLines, if_pos hd, if_neg (Nat.lt_irrefl 0),
        decide_eq_true hd]
      simp only [List.any_append, List.any_cons, List.any_nil, hempty_del,
        found_line_no_deleted_tail, deleted_line_deleted_tail,
        Bool.or_false, Bool.false_or, Bool.or_true, Bool.true_or]
    · rw [totalsLines, if_pos hd, if_pos he, decide_eq_true hd]
      simp only [List.any_append, List.any_cons, List.any_nil, hempty_del,
        found_line_no_deleted_tail, deleted_line_deleted_tail,
        edited_line_no_deleted_tail, Bool.or_false, Bool.false_or,
        Bool.or_true, Bool.true_or]
  · rcases Nat.eq_zero_or_pos d with hd | hd <;>
      rcases Nat.eq_zero_or_pos e with he | he
    · subst hd; subst he
      rw [totalsLines, if_neg (Nat.lt_irrefl 0), if_neg (Nat.lt_irrefl 0)]
      simp only [List.any_append, List.any_cons, List.any_nil, hempty_edit,
        found_line_no_edited_tail, Bool.or_false, Bool.false_or]
      decide
    · subst hd
      rw [totalsLines, if_neg (Nat.lt_irrefl 0), if_pos he,
        decide_eq_true he]
      simp only [List.any_append, List.any_cons, List.any_nil, hempty_edit,
        found_line_no_edited_tail, edited_line_edited_tail,
        Bool.or_false, Bool.false_or, Bool.or_true, Bool.true_or]
    · subst he
      rw [totalsLines, if_pos hd, if_neg (Nat.lt_irrefl 0)]
      simp only [List.any_append, List.any_cons, List.any_nil, hempty_edit,
        found_line_no_edited_tail, deleted_line_no_edited_tail,
        Bool.or_false, Bool.false_or]
      decide
    · rw [totalsLines, if_pos hd, if_pos he, decide_eq_true he]
      simp only [List.any_append, List.any_cons, List.any_nil, hempty_edit,
        found_line_no_edited_tail, deleted_line_no_edited_tail,
        edited_line_edited_tail, Bool.or_false, Bool.false_or,
        Bool.or_true, Bool.true_or]

/-- C8 counterexample: with one broken entry and the user ignoring it, the
run ends with both counts at zero and the program prints only the found
total — no deleted total and no edited total appear, so the claim that all
three totals are printed fails. -/
theorem totals_omitted_when_zero_counterexample :
    find_and_fix_summary (fun _ => .ignore) 1
      = ["".data, "1 potentially bad .desktop files were found.".data,
         "".data] ∧
    (find_and_fix_summary (fun _ => .ignore) 1).contains "0 deleted.".data
      = false ∧
    (find_and_fix_summary (fun _ => .ignore) 1).contains "0 edited.".data
      = false :=
  ⟨by decide, by decide, by decide⟩

/-- C8 amended: after the per-entry loop over a non-empty broken list ends
(including early quit), the found total is always printed, while the deleted
and edited totals are printed exactly when the respective counts are
positive. -/
theorem totals_printed_amended (resp : Nat → UserResp) (n : Nat)
    (hn : n ≠ 0) :
    (((Nat.repr n).data ++ foundTail) ∈ find_and_fix_summary resp n) ∧
    (find_and_fix_summary resp n).any (fun ℓ => pyEndsWith ℓ deletedTail)
      = decide (0 < (remLoop resp n 0).1) ∧
    (find_and_fix_summary resp n).any (fun ℓ => pyEndsWith ℓ editedTail)
      = decide (0 < (remLoop resp n 0).2) := by
  cases hp : remLoop resp n 0 with
  | mk d e =>
    have hsum : find_and_fix_summary resp n = totalsLines n d e := by
      simp [find_and_fix_summary, hn, hp]
    rw [hsum]
    exact totalsLines_spec n d e

/-- C8 amended witness: two entries, the first deleted and the second
ignored, print the found line and a deleted total but no edited total. -/
theorem totals_printed_amended_witness :
    (((Nat.repr 2).data ++ foundTail) ∈ find_and_fix_summary
        (fun i => if i = 0 then UserResp.delete true else .ignore) 2) ∧
    (find_and_fix_summary
        (fun i => if i = 0 then UserResp.delete true else .ignore) 2).any
        (fun ℓ => pyEndsWith ℓ deletedTail)
      = decide (0 < (remLoop
          (fun i => if i = 0 then UserResp.delete true else .ignore) 2 0).1) ∧
    (find_and_fix_summary
        (fun i => if i = 0 then UserResp.delete true else .ignore) 2).any
        (fun ℓ => pyEndsWith ℓ editedTail)
      = decide (0 < (remLoop
          (fun i => if i = 0 then UserResp.delete true else .ignore) 2 0).2) :=
  totals_printed_amended
    (fun i => if i = 0 then UserResp.delete true else .ignore) 2 (by decide)

/-! ## C1: client acceptance of helper response lines -/

lemma successLine_body (e : List Char) :
    successLine e = ("UNLINK ".data ++ (e ++ " SUCCESS".data)) ++ ['\n'] := by
  unfold successLine
  rw [show (" SUCCESS\n".data : List Char) = " SUCCESS".data ++ ['\n'] from rfl]
  simp [List.append_assoc]

lemma successLine_head (e : List Char) :
    ("UNLINK ".data ++ (e ++ " SUCCESS".data)).head? = some 'U' := rfl

lemma unknownLine_head (c e : List Char) :
    ("ERR Unknown: command=".data ++ pyRepr c ++ " entry=".data
      ++ pyRepr e).head? = some 'E' := rfl

lemma successLine_last (e : List Char) :
    ("UNLINK ".data ++ (e ++ " SUCCESS".data)).getLast? = some 'S' := by
  rw [show (" SUCCESS".data : List Char) = " SUCCES".data ++ ['S'] from rfl,
    show "UNLINK ".data ++ (e ++ (" SUCCES".data ++ ['S']))
      = ("UNLINK ".data ++ (e ++ " SUCCES".data)) ++ ['S'] by
        simp [List.append_assoc]]
  exact List.getLast?_concat _

lemma unknownLine_body (c e : List Char) :
    unknownLine c e
      = ("ERR Unknown: command=".data ++ pyRepr c ++ " entry=".data
          ++ pyRepr e) ++ ['\n'] := rfl

lemma unknownLine_last (c e : List Char) :
    ("ERR Unknown: command=".data ++ pyRepr c ++ " entry=".data
      ++ pyRepr e).getLast? = some '\x27' := by
  rw [show pyRepr e = ('\x27' :: e) ++ ['\x27'] from rfl,
    show "ERR Unknown: command=".data ++ pyRepr c ++ " entry=".data
        ++ (('\x27' :: e) ++ ['\x27'])
      = ("ERR Unknown: command=".data ++ pyRepr c ++ " entry=".data
          ++ ('\x27' :: e)) ++ ['\x27'] by simp [List.append_assoc]]
  exact List.getLast?_concat _

/-- Everything one helper step writes is one of the four response lines. -/
lemma step_output_shape (fs : FS) (raw : List Char) (out : List (List Char))
    (fs' : FS)
    (h : start_privilaged_step fs raw = .next out fs' ∨
         start_privilaged_step fs raw = .crash out fs')
    (ℓ : List Char) (hm : ℓ ∈ out) :
    ℓ = usageLine ∨ ℓ = errNotDesktopLine ∨ (∃ e, ℓ = successLine e) ∨
      ∃ c e, ℓ = unknownLine c e := by
  cases hsp : splitFirstSpace (pyStripL raw) with
  | none =>
    have hs : start_privilaged_step fs raw = .next [usageLine] fs := by
      unfold start_privilaged_step
      rw [hsp]
    rw [hs] at h
    rcases h with h | h
    · cases h
      exact Or.inl (List.mem_singleton.mp hm)
    · cases h
  | some p =>
    obtain ⟨command, entry⟩ := p
    have hs : start_privilaged_step fs raw = dispatchCmd fs command entry := by
      unfold start_privilaged_step
      rw [hsp]
    rw [hs] at h
    by_cases hcmd : command = "UNLINK".data
    · by_cases hend : pyEndsWith entry ".desktop".data = true
      · cases hu : unlinkFS fs entry with
        | none =>
          have hd : dispatchCmd fs command entry = .crash [] fs := by
            unfold dispatchCmd
            rw [if_pos hcmd, if_neg (not_not_intro hend), hu]
          rw [hd] at h
          rcases h with h | h
          · cases h
          · cases h
            cases hm
        | some fs2 =>
          have hd : dispatchCmd fs command entry
              = .next [successLine entry] fs2 := by
            unfold dispatchCmd
            rw [if_pos hcmd, if_neg (not_not_intro hend), hu]
          rw [hd] at h
          rcases h with h | h
          · cases h
            exact Or.inr (Or.inr (Or.inl ⟨entry, List.mem_singleton.mp hm⟩))
          · cases h
      · have hd : dispatchCmd fs command entry
            = .next [errNotDesktopLine] fs := by
          unfold dispatchCmd
          rw [if_pos hcmd, if_pos hend]
        rw [hd] at h
        rcases h with h | h
        · cases h
          exact Or.inr (Or.inl (List.mem_singleton.mp hm))
        · cases h
    · have hd : dispatchCmd fs command entry
          = .next [unknownLine command entry] fs := by
        unfold dispatchCmd
        rw [if_neg hcmd]
      rw [hd] at h
      rcases h with h | h
      · cases h
        exact Or.inr (Or.inr (Or.inr ⟨command, entry, List.mem_singleton.mp hm⟩))
      · cases h

/-- C1: on every response line the helper can write, the unlink fallback of
`remove_file` returns true exactly when the line, with its terminating
newline removed, ends with `SUCCESS`; in particular every success response
`UNLINK <entry> SUCCESS` is accepted, and the error and usage lines are
exactly the rejected ones. -/
theorem unlink_client_accepts_iff_line_ends_success
    (fs : FS) (raw : List Char) (out : List (List Char)) (fs' : FS)
    (hstep : start_privilaged_step fs raw = .next out fs' ∨
             start_privilaged_step fs raw = .crash out fs')
    (ℓ : List Char) (hmem : ℓ ∈ out) :
    remove_file_accepts ℓ = pyEndsWith (chompNL ℓ) "SUCCESS".data ∧
    (∀ e, ℓ = successLine e → remove_file_accepts ℓ = true) := by
  rcases step_output_shape fs raw out fs' hstep ℓ hmem with
    hu | he | ⟨e, hsucc⟩ | ⟨c, e, hunk⟩
  · subst hu
    refine ⟨by decide, ?_⟩
    intro e' he'
    exfalso
    have h2 : (successLine e').head? = some 'U' := rfl
    rw [← he'] at h2
    exact absurd h2 (by decide)
  · subst he
    refine ⟨by decide, ?_⟩
    intro e' he'
    exfalso
    have h2 : (successLine e').head? = some 'U' := rfl
    rw [← he'] at h2
    exact absurd h2 (by decide)
  · subst hsucc
    constructor
    · rw [successLine_body e]
      exact remove_file_accepts_body_newline (successLine_head e) rfl
        (successLine_last e) rfl
    · intro e' he'
      rw [successLine_body e, remove_file_accepts,
        pyStripL_body_newline (successLine_head e) rfl (successLine_last e) rfl,
        pyEndsWith]
      refine List.isSuffixOf_iff_suffix.mpr
        ⟨"UNLINK ".data ++ (e ++ [' ']), ?_⟩
      simp [List.append_assoc]
  · subst hunk
    constructor
    · rw [unknownLine_body c e]
      exact remove_file_accepts_body_newline (unknownLine_head c e) rfl
        (unknownLine_last c e) rfl
    · intro e' he'
      exfalso
      have h2 : (successLine e').head? = some 'U' := rfl
      rw [← he'] at h2
      have h3 : (unknownLine c e).head? = some 'E' := rfl
      rw [h3] at h2
      exact absurd h2 (by decide)

/-- C1 witness: a successful `UNLINK /tmp/x.desktop` round trip: the helper
deletes the file and answers the success line, which the client accepts. -/
theorem unlink_client_accepts_iff_line_ends_success_witness :
    remove_file_accepts (successLine "/tmp/x.desktop".data)
      = pyEndsWith (chompNL (successLine "/tmp/x.desktop".data))
          "SUCCESS".data ∧
    remove_file_accepts (successLine "/tmp/x.desktop".data) = true := by
  have h := unlink_client_accepts_iff_line_ends_success
    ["/tmp/x.desktop".data] "UNLINK /tmp/x.desktop\n".data
    [successLine "/tmp/x.desktop".data] []
    (Or.inl (by decide)) (successLine "/tmp/x.desktop".data) (by decide)
  exact ⟨h.1, h.2 "/tmp/x.desktop".data rfl⟩

end Cleanup
